import Mathlib

/-!
Verification of `src/local-console-ui/ui-tests/tools/samples/wasm/dummy_module.c`.

The source is a single compilation unit:

  int main() {
      printf("Hello, World\n");
  }

We give a shallow embedding of this program.  Observable behaviour is a
trace of side-effect events (writes to standard output, writes to standard
error, file modifications, environment modifications) together with a
process exit code.  The body of `main` is embedded as a list of C
statements executed against a process state; `printf` is the semantics of
the single library call at its call site (a format string containing no
conversion specifiers, so the formatted output equals the format string,
and the return value is the number of characters transmitted,
C11 7.21.6.3).  Reaching the closing brace of `main` without a return
statement yields exit status 0 (C11 5.1.2.2.3).
-/

namespace DummyModule

/-- Observable side-effect events a process execution can emit.  The event
alphabet includes effects the program could in principle perform (stderr
writes, file writes, environment updates) so that their absence is a
statable property, not an artifact of the model. -/
inductive Event
  | out (bytes : List Char)
  | err (bytes : List Char)
  | fsWrite (path : List Char) (bytes : List Char)
  | envSet (name : List Char) (value : List Char)
deriving DecidableEq, Repr

/-- Process state during execution: the trace of side-effect events emitted
so far, in order. -/
structure ProcState where
  trace : List Event
deriving DecidableEq, Repr

/-- Result of a whole process execution: either normal termination with the
emitted trace and an exit code, or a failure with the trace up to the
failure and a diagnostic.  The source program contains no fallible
operation, so the semantics below never produces `failed`; the constructor
exists so that absence of failure is a statable property. -/
inductive ExecResult
  | terminated (trace : List Event) (exitCode : Int)
  | failed (trace : List Event) (msg : List Char)
deriving DecidableEq, Repr

/-- Projection: the event trace of an execution result. -/
def ExecResult.traceOf : ExecResult → List Event
  | ExecResult.terminated t _ => t
  | ExecResult.failed t _ => t

/-- Projection: the exit code of an execution result, `none` if the
execution failed before exiting. -/
def ExecResult.exitCodeOf : ExecResult → Option Int
  | ExecResult.terminated _ c => some c
  | ExecResult.failed _ _ => none

/-- Whether the execution terminated normally (as opposed to failing). -/
def ExecResult.isTerminated : ExecResult → Bool
  | ExecResult.terminated _ _ => true
  | ExecResult.failed _ _ => false

/-- Bytes written to standard output over a trace, in order. -/
def stdoutBytes : List Event → List Char
  | [] => []
  | Event.out b :: rest => b ++ stdoutBytes rest
  | Event.err _ :: rest => stdoutBytes rest
  | Event.fsWrite _ _ :: rest => stdoutBytes rest
  | Event.envSet _ _ :: rest => stdoutBytes rest

/-- Bytes written to standard error over a trace, in order. -/
def stderrBytes : List Event → List Char
  | [] => []
  | Event.err b :: rest => b ++ stderrBytes rest
  | Event.out _ :: rest => stderrBytes rest
  | Event.fsWrite _ _ :: rest => stderrBytes rest
  | Event.envSet _ _ :: rest => stderrBytes rest

/-- The format string of the single printf call in `main`
(dummy_module.c line 13). -/
def helloChars : List Char := ("Hello, World\n").data

/-- Semantics of the printf library call at this call site.  The format
string contains no conversion specifiers, so the formatted output is the
format string itself; the call appends one stdout write event to the trace
and returns the number of characters transmitted (C11 7.21.6.3). -/
def printf (fmt : List Char) (s : ProcState) : Int × ProcState :=
  (Int.ofNat fmt.length, { s with trace := s.trace ++ [Event.out fmt] })

/-- C statements occurring in (or expressible in) the body of `main`: an
expression statement consisting of a printf call, or a return statement.
`main` in the source contains only the former; the `ret` constructor exists
so that the absence of an explicit return statement is statable. -/
inductive Stmt
  | callPrintf (fmt : List Char)
  | ret (v : Int)
deriving DecidableEq, Repr

/-- The body of `main` from dummy_module.c: the single expression statement
`printf("Hello, World\n");` and no return statement (lines 12 to 14). -/
def mainBody : List Stmt := [Stmt.callPrintf helloChars]

/-- Execute a statement list against a process state, parameterised by the
semantics `pf` of a printf call so that properties independent of the
outcome of the call (its return value or its effect) can be stated.  An
expression statement discards the value of its expression (the first
component of the pair `pf` returns); a return statement stops execution
with its value.  The result is the early-return value, if any, and the
final state. -/
def execStmtsWith (pf : List Char → ProcState → Int × ProcState) :
    List Stmt → ProcState → Option Int × ProcState
  | [], s => (none, s)
  | Stmt.callPrintf fmt :: rest, s => execStmtsWith pf rest (pf fmt s).2
  | Stmt.ret v :: _, s => (some v, s)

/-- Command-line arguments and environment handed to the process.  `main`
is declared with an empty parameter list and reads neither. -/
structure ProcInput where
  argv : List (List Char)
  env : List (List Char × List Char)

/-- Run the whole program under printf semantics `pf`: execute the body of
`main` from the empty trace; reaching the closing brace of `main` without a
return statement yields exit status 0 (C11 5.1.2.2.3).  The input is
ignored because `main` has an empty parameter list and the program reads no
environment. -/
def runMainWith (pf : List Char → ProcState → Int × ProcState)
    (inp : ProcInput) : ExecResult :=
  let r := execStmtsWith pf mainBody { trace := [] }
  ExecResult.terminated r.2.trace (r.1.getD 0)

/-- The program of dummy_module.c: `main` run under the actual printf
semantics. -/
def runProgram (inp : ProcInput) : ExecResult := runMainWith printf inp

/-- A concrete process input: empty argument vector and environment. -/
def emptyInput : ProcInput := { argv := [], env := [] }

/-- Sanity example: the concrete execution. -/
example :
    runProgram emptyInput = ExecResult.terminated [Event.out helloChars] 0 :=
  rfl

/-- C1: every execution writes exactly the byte sequence "Hello, World\n",
and nothing else, to standard output. -/
theorem stdout_exactly_hello (inp : ProcInput) :
    stdoutBytes (ExecResult.traceOf (runProgram inp)) =
      ("Hello, World\n").data := rfl

/-- C2: every execution terminates with exit status 0, even though
`mainBody` contains no return statement. -/
theorem exit_status_zero (inp : ProcInput) :
    (∀ v : Int, Stmt.ret v ∉ mainBody) ∧
      ExecResult.exitCodeOf (runProgram inp) = some 0 := by
  refine ⟨fun v hv => ?_, rfl⟩
  simp [mainBody] at hv

/-- C3: the program is deterministic: any two executions, whatever their
command-line arguments or environment, produce identical observable
results.  The semantics threads no state from one run to the next, so the
result is also independent of prior runs. -/
theorem deterministic (inp₁ inp₂ : ProcInput) :
    runProgram inp₁ = runProgram inp₂ := rfl

/-- C4: every execution terminates: it reaches a `terminated` result, and
does so having emitted at most one event per statement of `mainBody` (there
are no loops, no recursion, and no suspension points). -/
theorem terminates (inp : ProcInput) :
    ∃ t c, runProgram inp = ExecResult.terminated t c ∧
      t.length ≤ mainBody.length :=
  ⟨[Event.out helloChars], 0, rfl, by decide⟩

/-- C5: the only side effect of an execution is the single write to
standard output: the trace holds exactly one stdout write event, hence no
file modification, no environment modification and no stderr write, and
standard error receives no bytes. -/
theorem frame_single_write (inp : ProcInput) :
    ExecResult.traceOf (runProgram inp) = [Event.out helloChars] ∧
      stderrBytes (ExecResult.traceOf (runProgram inp)) = [] :=
  ⟨rfl, rfl⟩

/-- C6: no execution ends in an error result: the semantics always produces
a normal termination, never a `failed` result, and no diagnostic is
reported to the user. -/
theorem no_error_result (inp : ProcInput) :
    (runProgram inp).isTerminated = true := rfl

/-- C7: the output write happens before process termination: whenever the
process terminates with success status 0, the stdout write of the greeting
occurs in the trace of events emitted before termination (an `ExecResult`
orders every trace event before the exit). -/
theorem write_before_exit (inp : ProcInput) (t : List Event)
    (h : runProgram inp = ExecResult.terminated t 0) :
    Event.out helloChars ∈ t := by
  have ht : t = [Event.out helloChars] := by
    have h0 : runProgram inp = ExecResult.terminated [Event.out helloChars] 0 :=
      rfl
    have := h0.symm.trans h
    exact (ExecResult.terminated.injEq _ _ _ _ ▸ this).1.symm
  rw [ht]
  exact List.mem_singleton.mpr rfl

/-- Witness for C7 at the concrete empty input. -/
theorem write_before_exit_witness :
    Event.out helloChars ∈ [Event.out helloChars] :=
  write_before_exit emptyInput [Event.out helloChars] rfl

/-- C8: `main` discards the return value of printf: under every semantics
of the printf call, including ones in which the write fails and a negative
value is returned, the exit status is 0.  An output error cannot change the
exit code. -/
theorem printf_return_discarded
    (pf : List Char → ProcState → Int × ProcState) (inp : ProcInput) :
    ExecResult.exitCodeOf (runMainWith pf inp) = some 0 := rfl

end DummyModule
